import Mathlib

/-!
Verification of the cross-platform e-commerce starter.

This file gives a shallow embedding in Lean 4 of the repository's two
core computations — the checkout pricing / step state machine of the
`ShoppingCart` component and the catalog query / pagination engine of the
`ProductCatalog` component — together with the page-level add-to-cart
handler, and proves (or refutes) the specification's claims about them.

JavaScript numbers are modelled as exact rationals (ℚ); `x.toFixed(2)`
followed by unary `+` is modelled as rounding to the nearest multiple of
1/100 (`round2` below).  Optional (possibly-`undefined`) fields are
modelled as `Option`; the `??` operator is `Option.getD` and the
string-falsiness of `||` is spelled out where it occurs.
-/

/-- Rounding to two decimal places: the model of `+(x.toFixed(2))`. -/
def round2 (x : ℚ) : ℚ := (round (x * 100) : ℚ) / 100

/-- The model of `String.prototype.trim`: drop whitespace at both ends of a
character list. -/
def trimChars (l : List Char) : List Char :=
  ((l.dropWhile (·.isWhitespace)).reverse.dropWhile (·.isWhitespace)).reverse

/-- The model of `code.trim().toUpperCase()` in `applyCoupon` (the registry
codes are plain ASCII). -/
def normalizeCode (s : String) : String :=
  ⟨(trimChars s.data).map Char.toUpper⟩

/-- The model of `a || b` for an optional string `a`: `b` when `a` is
`undefined` or empty, `a` otherwise. -/
def jsOrString (a : Option String) (b : String) : String :=
  match a with
  | some s => if s = "" then b else s
  | none => b

namespace SC

/-- `CartItem` of the ShoppingCart component. -/
structure CartItem where
  id : String
  name : String
  price : ℚ
  image : String
  quantity : ℚ
  stock : ℚ
  subtitle : Option String := none
deriving DecidableEq, Repr

/-- The three coupon kinds, `"percent" | "fixed" | "shipping"`. -/
inductive CouponType
  | percent
  | fixed
  | shipping
deriving DecidableEq, Repr

/-- `Coupon` record; `value` is optional in the source. -/
structure Coupon where
  code : String
  type : CouponType
  value : Option ℚ
deriving DecidableEq, Repr

/-- The static coupon registry `COUPONS`. -/
def COUPONS : List Coupon :=
  [ ⟨"SAVE10", .percent, some 10⟩
  , ⟨"WELCOME15", .percent, some 15⟩
  , ⟨"TAKE5", .fixed, some 5⟩
  , ⟨"FREESHIP", .shipping, none⟩ ]

/-- `ShippingMethod` record (the fields the pricing logic reads). -/
structure ShippingMethod where
  id : String
  label : String
  cost : ℚ
deriving DecidableEq, Repr

/-- The default shipping method list `DEFAULT_SHIPPING`. -/
def DEFAULT_SHIPPING : List ShippingMethod :=
  [ ⟨"standard", "Standard", 6⟩
  , ⟨"express", "Express", 18⟩
  , ⟨"pickup", "Store Pickup", 0⟩ ]

/-- The default cart `DEFAULT_ITEMS` (pricing-relevant fields). -/
def DEFAULT_ITEMS : List CartItem :=
  [ ⟨"sku-1", "Bridge Tee", 28, "tee.jpg", 1, 8, some "Midweight, 100% cotton"⟩
  , ⟨"sku-2", "Everyday Tote", 52, "tote.jpg", 1, 5, some "Recycled canvas"⟩ ]

/-- `subtotal = cart.reduce((acc, item) => acc + item.price * item.quantity, 0)`. -/
def subtotal (cart : List CartItem) : ℚ :=
  cart.foldl (fun acc item => acc + item.price * item.quantity) 0

/-- `shippingOptions.find((m) => m.id === selectedShipping) ?? shippingOptions[0]`. -/
def resolveMethod (shippingOptions : List ShippingMethod) (selectedShipping : String) :
    Option ShippingMethod :=
  match shippingOptions.find? (fun m => m.id == selectedShipping) with
  | some m => some m
  | none => shippingOptions.head?

/-- `appliedCoupon?.type === "shipping"`. -/
def couponIsShipping (appliedCoupon : Option Coupon) : Bool :=
  match appliedCoupon with
  | some c => c.type == .shipping
  | none => false

/-- The `shippingCost` derived amount: resolve the selected method (falling
back to the first option); `0` if there is no method at all or the applied
coupon is a free-shipping coupon, otherwise the method's cost. -/
def shippingCost (shippingOptions : List ShippingMethod) (selectedShipping : String)
    (appliedCoupon : Option Coupon) : ℚ :=
  match resolveMethod shippingOptions selectedShipping with
  | none => 0
  | some m => if couponIsShipping appliedCoupon then 0 else m.cost

/-- The `discount` derived amount.  The source guards the percent and fixed
branches with the truthiness of `appliedCoupon.value`, i.e. the value must
be present and non-zero. -/
def discount (appliedCoupon : Option Coupon) (sub : ℚ) : ℚ :=
  match appliedCoupon with
  | none => 0
  | some c =>
    match c.type, c.value with
    | .percent, some v => if v ≠ 0 then sub * v / 100 else 0
    | .fixed, some v => if v ≠ 0 then min v sub else 0
    | _, _ => 0

/-- `taxedSubtotal = Math.max(subtotal - discount, 0)`. -/
def taxedSubtotal (sub disc : ℚ) : ℚ := max (sub - disc) 0

/-- `tax = +(taxedSubtotal * taxRate).toFixed(2)`. -/
def tax (taxedSub taxRate : ℚ) : ℚ := round2 (taxedSub * taxRate)

/-- `total = +(taxedSubtotal + tax + shippingCost).toFixed(2)`. -/
def total (taxedSub taxAmt shipCost : ℚ) : ℚ := round2 (taxedSub + taxAmt + shipCost)

/-- All derived checkout amounts bundled together. -/
structure Amounts where
  subtotal : ℚ
  shippingCost : ℚ
  discount : ℚ
  taxedSubtotal : ℚ
  tax : ℚ
  total : ℚ
deriving Repr

/-- The reactive derivation of all checkout amounts from the cart, the
applied coupon, the shipping options, the selected shipping id and the tax
rate. -/
def amounts (cart : List CartItem) (appliedCoupon : Option Coupon)
    (shippingOptions : List ShippingMethod) (selectedShipping : String)
    (taxRate : ℚ) : Amounts :=
  let sub := subtotal cart
  let ship := shippingCost shippingOptions selectedShipping appliedCoupon
  let disc := discount appliedCoupon sub
  let base := taxedSubtotal sub disc
  let t := tax base taxRate
  { subtotal := sub
  , shippingCost := ship
  , discount := disc
  , taxedSubtotal := base
  , tax := t
  , total := total base t ship }

/-- `validateQty`: a requested quantity below 1 is reported valid; a
quantity above the item's stock is reported invalid (with an error toast);
anything else is valid. -/
def validateQty (item : CartItem) (nextQty : ℚ) : Bool :=
  if nextQty < 1 then true
  else if item.stock < nextQty then false
  else true

/-- The per-item body of the `updateQty` map. -/
def updateItem (id : String) (nextQty : ℚ) (it : CartItem) : CartItem :=
  if it.id == id then
    (if validateQty it nextQty then { it with quantity := nextQty } else it)
  else it

/-- `updateQty`: map the requested quantity over the cart, keeping the old
quantity for items that fail validation.  The second component records
whether a rejection toast fired (i.e. some targeted item failed
validation). -/
def updateQty (cart : List CartItem) (id : String) (nextQty : ℚ) :
    List CartItem × Bool :=
  ( cart.map (updateItem id nextQty)
  , cart.any (fun it => it.id == id && !(validateQty it nextQty)) )

/-- The outcome signalled by `applyCoupon`: nothing (empty input), a
rejection toast, or a success toast. -/
inductive ApplySignal
  | silent
  | rejected
  | applied
deriving DecidableEq, Repr

/-- `applyCoupon`: normalize the submitted code (`trim` then `toUpperCase`);
an empty code returns silently; an unknown code leaves the applied coupon
unchanged and fires a rejection toast; a known code replaces the applied
coupon. -/
def applyCoupon (couponInput : String) (appliedCoupon : Option Coupon) :
    Option Coupon × ApplySignal :=
  let code := normalizeCode couponInput
  if code = "" then (appliedCoupon, .silent)
  else
    match COUPONS.find? (fun c => c.code == code) with
    | none => (appliedCoupon, .rejected)
    | some found => (some found, .applied)

/-- The checkout steps. -/
inductive Step
  | cart
  | details
  | shipping
  | payment
  | review
  | success
deriving DecidableEq, BEq, Repr

/-- The step order used by `goBack`. -/
def stepOrder : List Step :=
  [.cart, .details, .shipping, .payment, .review, .success]

/-- `goBack`: move to the step one position earlier in `stepOrder` when the
current step is not the first. -/
def goBack (s : Step) : Step :=
  let idx := stepOrder.indexOf s
  if 0 < idx then stepOrder.getD (idx - 1) s else s

/-- The transitions the rendered UI exposes (each constructor is one
`setStep` call site of a step's rendering).  Forward transitions are
additionally guarded by `canProceedFrom…` predicates over the component
state; the guards only restrict when a transition may fire, not its source
or target, and are omitted here.  The success step renders a single
"Continue shopping" button whose handler is `setStep("cart")`. -/
inductive StepTransition : Step → Step → Prop
  | checkout : StepTransition .cart .details
  | detailsNext : StepTransition .details .shipping
  | shippingNext : StepTransition .shipping .payment
  | paymentNext : StepTransition .payment .review
  | placeOrder : StepTransition .review .success
  | detailsBack : StepTransition .details (goBack .details)
  | shippingBack : StepTransition .shipping (goBack .shipping)
  | paymentBack : StepTransition .payment (goBack .payment)
  | reviewBack : StepTransition .review (goBack .review)
  | continueShopping : StepTransition .success .cart

end SC

namespace PC

/-- `CatalogProduct` of the ProductCatalog component. -/
structure CatalogProduct where
  id : String
  name : String
  price : ℚ
  image : Option String := none
  category : Option String := none
  sku : Option String := none
  brand : Option String := none
  rating : Option ℚ := none
  reviewsCount : Option ℤ := none
  inStock : Option Bool := none
  inventoryCount : Option ℤ := none
  description : Option String := none
deriving DecidableEq, Repr

/-- The in-stock-only filter predicate of the catalog `computed` memo:
`p.inStock !== false && (p.inventoryCount ?? 1) > 0`. -/
def inStockFilterKeeps (p : CatalogProduct) : Bool :=
  !(p.inStock == some false) && decide (0 < p.inventoryCount.getD 1)

/-- The add-to-cart gate of `handleAddToCart`: the product is accepted
unless `p.inStock === false || (p.inventoryCount ?? 0) <= 0` (which fires
an "Out of stock" toast and returns early). -/
def addGateAccepts (p : CatalogProduct) : Bool :=
  !((p.inStock == some false) || decide (p.inventoryCount.getD 0 ≤ 0))

/-- The model of `s.toLowerCase()` (ASCII). -/
def lowerStr (s : String) : String := ⟨s.data.map Char.toLower⟩

/-- The model of `s.includes(sub)`: substring containment. -/
def strIncludes (s sub : String) : Bool :=
  s.data.tails.any (fun t => sub.data.isPrefixOf t)

/-- The free-text query predicate: case-insensitive substring match against
name, brand, or SKU (brand and SKU only when present). -/
def matchesQuery (q : String) (p : CatalogProduct) : Bool :=
  strIncludes (lowerStr p.name) q ||
    (match p.brand with
     | some b => strIncludes (lowerStr b) q
     | none => false) ||
    (match p.sku with
     | some k => strIncludes (lowerStr k) q
     | none => false)

/-- The catalog filter state the `computed` memo reads. -/
structure Filters where
  query : String
  activeCategory : String
  onlyInStock : Bool
  onlyWishlist : Bool
  wishlist : String → Bool

/-- The conjunctive filter chain of the `computed` memo, in source order:
free-text query (active when the query trims to something non-empty; the
needle is the lowercased, untrimmed query), category (unless `"all"`,
compared against `p.category || ""`), in-stock only, wishlist only. -/
def applyFilters (products : List CatalogProduct) (f : Filters) :
    List CatalogProduct :=
  let l1 :=
    if trimChars f.query.data ≠ [] then
      products.filter (matchesQuery (lowerStr f.query))
    else products
  let l2 :=
    if f.activeCategory ≠ "all" then
      l1.filter (fun p => jsOrString p.category "" == f.activeCategory)
    else l1
  let l3 := if f.onlyInStock then l2.filter inStockFilterKeeps else l2
  if f.onlyWishlist then l3.filter (fun p => f.wishlist p.id) else l3

/-- The page of results the `computed` memo returns. -/
structure PageResult where
  total : ℕ
  totalPages : ℕ
  currentPage : ℕ
  items : List CatalogProduct

/-- The catalog query engine: filter, sort, then paginate.  The sort step is
a parameter (`sortFn`) because most sort options compare with the
environment-dependent `localeCompare`; `Array.prototype.sort` permutes the
list in place, so `sortFn` preserves length.  `Math.ceil(total / pageSize)`
is `(total + pageSize - 1) / pageSize` for the positive page sizes the
component offers (12/24/48); `slice(start, start + pageSize)` is
`drop start` then `take pageSize`. -/
def computedEngine (products : List CatalogProduct) (f : Filters)
    (sortFn : List CatalogProduct → List CatalogProduct)
    (pageSize page : ℕ) : PageResult :=
  let list := sortFn (applyFilters products f)
  let total := list.length
  let totalPages := max 1 ((total + pageSize - 1) / pageSize)
  let currentPage := min page totalPages
  let start := (currentPage - 1) * pageSize
  { total := total
  , totalPages := totalPages
  , currentPage := currentPage
  , items := (list.drop start).take pageSize }

/-- `toggleCompare`: flip the id's membership in the compare set; if the
resulting set of active ids has more than 4 members, revert to the previous
set (with a soft-warning toast).  The `Record<string, boolean>` state is
modelled as its set of ids mapped to `true`. -/
def toggleCompare (prev : Finset String) (id : String) : Finset String :=
  let next := if id ∈ prev then prev.erase id else insert id prev
  if 4 < next.card then prev else next

end PC

namespace PG

/-- The page-level `CartItem` (part_000). -/
structure CartItem where
  id : String
  name : String
  price : ℚ
  image : String
  quantity : ℤ
  stock : ℤ
  subtitle : Option String := none
deriving DecidableEq, Repr

/-- The fallback product image used when `p.image` is falsy. -/
def FALLBACK_IMG : String := "fallback.jpg"

/-- The stock ceiling the handler resolves for an existing line:
`p.inventoryCount ?? existing.stock ?? 1` (the final `?? 1` is dead code
since `stock` is a required field). -/
def resolveStock (p : PC.CatalogProduct) (existing : CartItem) : ℤ :=
  p.inventoryCount.getD existing.stock

/-- The new line appended for a product not yet in the cart. -/
def freshLine (p : PC.CatalogProduct) : CartItem :=
  { id := p.id
  , name := p.name
  , price := p.price
  , image := jsOrString p.image FALLBACK_IMG
  , quantity := 1
  , stock := p.inventoryCount.getD 10
  , subtitle := p.brand }

/-- The page-level `handleAddToCart` state update: if a line with the
product's id exists, set every such line's quantity to
`Math.min(existing.quantity + 1, stock)` where `existing` is the first
matching line and `stock` is `resolveStock`; otherwise append a fresh line
with quantity 1. -/
def handleAddToCart (p : PC.CatalogProduct) (prev : List CartItem) :
    List CartItem :=
  match prev.find? (fun i => i.id == p.id) with
  | some existing =>
    let nextQty := existing.quantity + 1
    let stock := resolveStock p existing
    prev.map (fun i =>
      if i.id == p.id then { i with quantity := min nextQty stock } else i)
  | none => prev ++ [freshLine p]

end PG

/-! ### Helper lemmas -/

theorem round2_of_bounds (x : ℚ) (n : ℤ) (h1 : (n : ℚ) ≤ x * 100 + 1/2)
    (h2 : x * 100 + 1/2 < n + 1) : round2 x = (n : ℚ) / 100 := by
  rw [round2, round_eq, Int.floor_eq_iff.mpr ⟨h1, h2⟩]

theorem round2_cents (k : ℤ) : round2 ((k : ℚ) / 100) = (k : ℚ) / 100 := by
  rw [round2, show ((k : ℚ) / 100 * 100) = (k : ℚ) by field_simp, round_intCast]

theorem round2_cents_add (k : ℤ) (x : ℚ) :
    round2 ((k : ℚ) / 100 + x) = (k : ℚ) / 100 + round2 x := by
  rw [round2, round2, show ((k : ℚ) / 100 + x) * 100 = x * 100 + (k : ℚ) by ring,
    round_add_int]
  push_cast
  ring

theorem SC.subtotal_eq_sum (cart : List SC.CartItem) :
    SC.subtotal cart = (cart.map (fun it => it.price * it.quantity)).sum := by
  rw [List.sum_eq_foldl, List.foldl_map]
  rfl

theorem SC.discount_of_percent (c : SC.Coupon) (s v : ℚ)
    (h1 : c.type = .percent) (h2 : c.value = some v) (h3 : v ≠ 0) :
    SC.discount (some c) s = s * v / 100 := by
  obtain ⟨code, ty, val⟩ := c
  dsimp at h1 h2
  subst h1
  subst h2
  simp [SC.discount, h3]

theorem SC.discount_of_fixed (c : SC.Coupon) (s v : ℚ)
    (h1 : c.type = .fixed) (h2 : c.value = some v) (h3 : v ≠ 0) :
    SC.discount (some c) s = min v s := by
  obtain ⟨code, ty, val⟩ := c
  dsimp at h1 h2
  subst h1
  subst h2
  simp [SC.discount, h3]

theorem SC.discount_of_shipping (c : SC.Coupon) (s : ℚ)
    (h1 : c.type = .shipping) : SC.discount (some c) s = 0 := by
  obtain ⟨code, ty, val⟩ := c
  dsimp at h1
  subst h1
  cases val <;> rfl

theorem SC.registry_value_ne_zero (c : SC.Coupon) (hc : c ∈ SC.COUPONS)
    (v : ℚ) (hv : c.value = some v) : v ≠ 0 := by
  simp only [SC.COUPONS, List.mem_cons, List.not_mem_nil, or_false] at hc
  rcases hc with rfl | rfl | rfl | rfl <;> simp_all
  all_goals (subst hv; norm_num)

theorem SC.subtotal_default : SC.subtotal SC.DEFAULT_ITEMS = 80 := by
  simp [SC.subtotal, SC.DEFAULT_ITEMS]
  norm_num

theorem SC.shippingCost_default_standard (coupon : Option SC.Coupon)
    (h : SC.couponIsShipping coupon = false) :
    SC.shippingCost SC.DEFAULT_SHIPPING "standard" coupon = 6 := by
  have hres : SC.resolveMethod SC.DEFAULT_SHIPPING "standard"
      = some ⟨"standard", "Standard", 6⟩ := rfl
  simp [SC.shippingCost, hres, h]

/-! ### Claims -/

/-- C1: for every cart, applied registry coupon, selected shipping method
and tax rate, the derived checkout amounts satisfy: subtotal is the sum of
price × quantity over the cart; discount is subtotal·value/100 for a
percent coupon, min(value, subtotal) for a fixed coupon, and 0 for a
shipping coupon or no coupon; shippingCost is 0 under a shipping coupon and
the selected method's cost otherwise; tax = round2(max(subtotal − discount,
0) · taxRate); total = round2(max(subtotal − discount, 0) + tax +
shippingCost).  In particular, for the default cart with coupon SAVE10,
shipping cost 6 and tax rate 0.0725: discount = 8, tax = 5.22 and
total = 83.22. -/
theorem C1_checkout_derived_amounts :
    (∀ (cart : List SC.CartItem) (coupon : Option SC.Coupon)
        (opts : List SC.ShippingMethod) (sel : String) (rate : ℚ),
      (∀ c, coupon = some c → c ∈ SC.COUPONS) →
      ((SC.amounts cart coupon opts sel rate).subtotal
          = (cart.map (fun it => it.price * it.quantity)).sum
        ∧ (coupon = none → (SC.amounts cart coupon opts sel rate).discount = 0)
        ∧ (∀ c v, coupon = some c → c.type = SC.CouponType.percent →
            c.value = some v →
            (SC.amounts cart coupon opts sel rate).discount
              = (SC.amounts cart coupon opts sel rate).subtotal * v / 100)
        ∧ (∀ c v, coupon = some c → c.type = SC.CouponType.fixed →
            c.value = some v →
            (SC.amounts cart coupon opts sel rate).discount
              = min v (SC.amounts cart coupon opts sel rate).subtotal)
        ∧ (∀ c, coupon = some c → c.type = SC.CouponType.shipping →
            (SC.amounts cart coupon opts sel rate).discount = 0)
        ∧ (∀ m, SC.resolveMethod opts sel = some m →
            (SC.amounts cart coupon opts sel rate).shippingCost
              = if SC.couponIsShipping coupon then 0 else m.cost)
        ∧ (SC.amounts cart coupon opts sel rate).tax
            = round2 (max ((SC.amounts cart coupon opts sel rate).subtotal
                - (SC.amounts cart coupon opts sel rate).discount) 0 * rate)
        ∧ (SC.amounts cart coupon opts sel rate).total
            = round2 (max ((SC.amounts cart coupon opts sel rate).subtotal
                - (SC.amounts cart coupon opts sel rate).discount) 0
              + (SC.amounts cart coupon opts sel rate).tax
              + (SC.amounts cart coupon opts sel rate).shippingCost)))
    ∧ ((SC.amounts SC.DEFAULT_ITEMS
          (some ⟨"SAVE10", SC.CouponType.percent, some 10⟩)
          SC.DEFAULT_SHIPPING "standard" (29/400)).discount = 8
      ∧ (SC.amounts SC.DEFAULT_ITEMS
          (some ⟨"SAVE10", SC.CouponType.percent, some 10⟩)
          SC.DEFAULT_SHIPPING "standard" (29/400)).tax = 522/100
      ∧ (SC.amounts SC.DEFAULT_ITEMS
          (some ⟨"SAVE10", SC.CouponType.percent, some 10⟩)
          SC.DEFAULT_SHIPPING "standard" (29/400)).total = 8322/100) := by
  constructor
  · intro cart coupon opts sel rate hreg
    refine ⟨SC.subtotal_eq_sum cart, ?_, ?_, ?_, ?_, ?_, ?_, ?_⟩
    · intro h
      subst h
      rfl
    · intro c v hc hty hval
      subst hc
      exact SC.discount_of_percent c _ v hty hval
        (SC.registry_value_ne_zero c (hreg c rfl) v hval)
    · intro c v hc hty hval
      subst hc
      exact SC.discount_of_fixed c _ v hty hval
        (SC.registry_value_ne_zero c (hreg c rfl) v hval)
    · intro c hc hty
      subst hc
      exact SC.discount_of_shipping c _ hty
    · intro m hm
      show SC.shippingCost opts sel coupon = _
      rw [SC.shippingCost, hm]
    · rfl
    · rfl
  · have hsub : SC.subtotal SC.DEFAULT_ITEMS = 80 := SC.subtotal_default
    have hdisc : SC.discount (some ⟨"SAVE10", SC.CouponType.percent, some 10⟩)
        (80 : ℚ) = 8 := by
      rw [SC.discount_of_percent _ _ 10 rfl rfl (by norm_num)]
      norm_num
    have hship : SC.shippingCost SC.DEFAULT_SHIPPING "standard"
        (some ⟨"SAVE10", SC.CouponType.percent, some 10⟩) = 6 :=
      SC.shippingCost_default_standard _ rfl
    have hbase : SC.taxedSubtotal (80 : ℚ) 8 = 72 := by
      rw [SC.taxedSubtotal]
      norm_num
    have htax : SC.tax 72 (29/400) = 522/100 := by
      rw [SC.tax, show (72 : ℚ) * (29/400) = ((522 : ℤ) : ℚ) / 100 by norm_num,
        round2_cents]
      norm_num
    have htot : SC.total 72 (522/100) 6 = 8322/100 := by
      rw [SC.total, show (72 : ℚ) + 522/100 + 6 = ((8322 : ℤ) : ℚ) / 100 by norm_num,
        round2_cents]
      norm_num
    refine ⟨?_, ?_, ?_⟩ <;> simp only [SC.amounts]
    · rw [hsub, hdisc]
    · rw [hsub, hdisc, hbase, htax]
    · rw [hsub, hdisc, hbase, htax, hship, htot]

/-- Witness for C1: the universally quantified part applied to the concrete
SAVE10 scenario, with the registry hypothesis discharged. -/
theorem C1_checkout_derived_amounts_witness :
    (SC.amounts SC.DEFAULT_ITEMS (some ⟨"SAVE10", SC.CouponType.percent, some 10⟩)
        SC.DEFAULT_SHIPPING "standard" (29/400)).discount
      = (SC.amounts SC.DEFAULT_ITEMS (some ⟨"SAVE10", SC.CouponType.percent, some 10⟩)
        SC.DEFAULT_SHIPPING "standard" (29/400)).subtotal * 10 / 100 := by
  have h := C1_checkout_derived_amounts.1 SC.DEFAULT_ITEMS
      (some ⟨"SAVE10", SC.CouponType.percent, some 10⟩) SC.DEFAULT_SHIPPING
      "standard" (29/400)
      (by
        intro c hc
        cases hc
        exact List.mem_cons_self _ _)
  exact h.2.2.1 _ 10 rfl rfl rfl

theorem SC.total_cents_identity (b s rate : ℚ) (K M : ℤ)
    (hb : b = (K : ℚ) / 100) (hs : s = (M : ℚ) / 100) :
    SC.total b (SC.tax b rate) s = round2 (b * (1 + rate)) + s := by
  subst hb
  subst hs
  rw [SC.total, SC.tax]
  have h1 : (K : ℚ) / 100 + round2 ((K : ℚ) / 100 * rate) + (M : ℚ) / 100
      = ((K + round ((K : ℚ) / 100 * rate * 100) + M : ℤ) : ℚ) / 100 := by
    rw [round2]
    push_cast
    ring
  rw [h1, round2_cents,
    show (K : ℚ) / 100 * (1 + rate) = (K : ℚ) / 100 + (K : ℚ) / 100 * rate by ring,
    round2_cents_add, round2]
  push_cast
  ring

/-- C2 (amended): the spec's combined-rounding identity
`total = round2(max(subtotal − discount, 0) · (1 + taxRate)) + shippingCost`
holds whenever the taxable base and the shipping cost are integer multiples
of 0.01 (the tax amount always is, by construction); the code actually
computes `total = round2(taxedSubtotal + tax + shippingCost)` with
`tax = round2(taxedSubtotal · taxRate)`, which differs from the claimed
formula on non-cent inputs. -/
theorem C2_total_combined_rounding (cart : List SC.CartItem)
    (coupon : Option SC.Coupon) (opts : List SC.ShippingMethod) (sel : String)
    (rate : ℚ)
    (hbase : ∃ K : ℤ, max ((SC.amounts cart coupon opts sel rate).subtotal
      - (SC.amounts cart coupon opts sel rate).discount) 0 = (K : ℚ) / 100)
    (hship : ∃ M : ℤ, (SC.amounts cart coupon opts sel rate).shippingCost
      = (M : ℚ) / 100) :
    (SC.amounts cart coupon opts sel rate).total
      = round2 (max ((SC.amounts cart coupon opts sel rate).subtotal
          - (SC.amounts cart coupon opts sel rate).discount) 0 * (1 + rate))
        + (SC.amounts cart coupon opts sel rate).shippingCost := by
  obtain ⟨K, hK⟩ := hbase
  obtain ⟨M, hM⟩ := hship
  simp only [SC.amounts] at hK hM ⊢
  exact SC.total_cents_identity _ _ rate K M hK hM

/-- Witness for C2 (amended): the identity at the default cart, no coupon,
standard shipping and tax rate 0.0725. -/
theorem C2_total_combined_rounding_witness :
    (SC.amounts SC.DEFAULT_ITEMS none SC.DEFAULT_SHIPPING "standard"
        (29/400)).total
      = round2 (max ((SC.amounts SC.DEFAULT_ITEMS none SC.DEFAULT_SHIPPING
            "standard" (29/400)).subtotal
          - (SC.amounts SC.DEFAULT_ITEMS none SC.DEFAULT_SHIPPING "standard"
            (29/400)).discount) 0 * (1 + 29/400))
        + (SC.amounts SC.DEFAULT_ITEMS none SC.DEFAULT_SHIPPING "standard"
            (29/400)).shippingCost := by
  apply C2_total_combined_rounding
  · refine ⟨8000, ?_⟩
    simp only [SC.amounts]
    rw [SC.subtotal_default]
    show max ((80 : ℚ) - SC.discount none 80) 0 = _
    rw [show SC.discount none 80 = 0 from rfl]
    push_cast
    rw [max_eq_left (by norm_num)]
    norm_num
  · refine ⟨600, ?_⟩
    simp only [SC.amounts]
    rw [SC.shippingCost_default_standard none rfl]
    push_cast
    norm_num

/-- C2 counterexample: with an empty cart, no coupon, tax rate 0 and a
single shipping method of cost 0.006, the code's total is 0.01 while the
claim's formula yields 0.006, so the claimed identity is false as stated. -/
theorem C2_total_claim_counterexample :
    (SC.amounts [] none [⟨"s", "S", 3/500⟩] "s" 0).total = 1/100
    ∧ round2 (max ((SC.amounts [] none [⟨"s", "S", 3/500⟩] "s" 0).subtotal
          - (SC.amounts [] none [⟨"s", "S", 3/500⟩] "s" 0).discount) 0 * (1 + 0))
        + (SC.amounts [] none [⟨"s", "S", 3/500⟩] "s" 0).shippingCost = 3/500
    ∧ (1/100 : ℚ) ≠ 3/500 := by
  have hsub : SC.subtotal [] = 0 := rfl
  have hdisc : SC.discount none (0 : ℚ) = 0 := rfl
  have hship : SC.shippingCost [⟨"s", "S", 3/500⟩] "s" none = 3/500 := rfl
  have hbase : SC.taxedSubtotal (SC.subtotal [])
      (SC.discount none (SC.subtotal [])) = 0 := by
    rw [hsub, hdisc, SC.taxedSubtotal]
    norm_num
  have htax : SC.tax 0 0 = 0 := by
    rw [SC.tax, show (0 : ℚ) * 0 = ((0 : ℤ) : ℚ) / 100 by norm_num, round2_cents]
    norm_num
  refine ⟨?_, ?_, by norm_num⟩
  · simp only [SC.amounts]
    rw [hbase, htax, hship, SC.total,
      show (0 : ℚ) + 0 + 3/500 = 3/500 by norm_num]
    rw [round2_of_bounds (3/500) 1 (by norm_num) (by norm_num)]
    norm_num
  · simp only [SC.amounts]
    rw [hsub, hdisc, hship,
      show max ((0 : ℚ) - 0) 0 * (1 + 0) = ((0 : ℤ) : ℚ) / 100 by
        rw [max_eq_left (by norm_num)]
        norm_num,
      round2_cents]
    norm_num

theorem SC.validateQty_false_iff (it : SC.CartItem) (q : ℚ) :
    SC.validateQty it q = false ↔ 1 ≤ q ∧ it.stock < q := by
  unfold SC.validateQty
  split_ifs with h1 h2
  · constructor
    · intro h
      simp at h
    · rintro ⟨ha, -⟩
      linarith
  · exact ⟨fun _ => ⟨not_lt.mp h1, h2⟩, fun _ => rfl⟩
  · constructor
    · intro h
      simp at h
    · rintro ⟨-, hb⟩
      exact absurd hb h2

theorem SC.updateItem_spec (id : String) (q : ℚ) (it : SC.CartItem) :
    (SC.updateItem id q it).id = it.id
    ∧ (SC.updateItem id q it).stock = it.stock
    ∧ (SC.updateItem id q it).price = it.price
    ∧ (it.id ≠ id → SC.updateItem id q it = it)
    ∧ (it.id = id →
        ((1 ≤ q → q ≤ it.stock → (SC.updateItem id q it).quantity = q)
          ∧ (1 ≤ q → it.stock < q → SC.updateItem id q it = it)
          ∧ (q < 1 → (SC.updateItem id q it).quantity = q))) := by
  by_cases hid : it.id = id
  · have hbeq : (it.id == id) = true := beq_iff_eq.mpr hid
    by_cases hv : SC.validateQty it q = true
    · have hres : SC.updateItem id q it = { it with quantity := q } := by
        simp [SC.updateItem, hbeq, hv]
      have hnot : ¬(1 ≤ q ∧ it.stock < q) := by
        rw [← SC.validateQty_false_iff]
        simp [hv]
      rw [hres]
      refine ⟨rfl, rfl, rfl, fun h => absurd hid h,
        fun _ => ⟨fun _ _ => rfl, ?_, fun _ => rfl⟩⟩
      intro h1 h2
      exact absurd ⟨h1, h2⟩ hnot
    · have hvf : SC.validateQty it q = false := by
        cases hb : SC.validateQty it q
        · rfl
        · exact absurd hb hv
      obtain ⟨h1, h2⟩ := (SC.validateQty_false_iff it q).mp hvf
      have hres : SC.updateItem id q it = it := by
        simp [SC.updateItem, hbeq, hvf]
      rw [hres]
      refine ⟨rfl, rfl, rfl, fun _ => rfl, fun _ => ⟨?_, fun _ _ => rfl, ?_⟩⟩
      · intro _ hle
        exact absurd h2 (not_lt.mpr hle)
      · intro hlt
        exact absurd hlt (not_lt.mpr h1)
  · have hbeq : (it.id == id) = false := by
      rw [beq_eq_false_iff_ne]
      exact hid
    have hres : SC.updateItem id q it = it := by
      simp [SC.updateItem, hbeq]
    rw [hres]
    exact ⟨rfl, rfl, rfl, fun _ => rfl, fun h => absurd h hid⟩

/-- C3 counterexample: requesting quantity 0 for "sku-1" on the default cart
is accepted (the quantity becomes 0 and no rejection fires), although
0 < 1, so the claimed invariant `1 ≤ quantity` is not preserved by every
mutation. -/
theorem C3_quantity_invariant_counterexample :
    ((SC.updateQty SC.DEFAULT_ITEMS "sku-1" 0).1.map (fun it => it.quantity))
        = [0, 1]
    ∧ (SC.updateQty SC.DEFAULT_ITEMS "sku-1" 0).2 = false
    ∧ ¬(1 ≤ (0 : ℚ)) := by
  refine ⟨rfl, rfl, by norm_num⟩

/-- C3 (amended): every quantity mutation leaves id, stock and price of each
line unchanged and touches only lines with the targeted id; for a targeted
line, a request q with 1 ≤ q ≤ stock sets the quantity to exactly q, a
request q > stock (q ≥ 1) leaves the line unchanged, and the rejection
signal fires iff some targeted line has 1 ≤ q ∧ stock < q — but a request
q < 1 is accepted verbatim as well, so the lower bound of the claimed
`1 ≤ quantity ≤ stock` invariant is not enforced. -/
theorem C3_quantity_update (cart : List SC.CartItem) (id : String) (q : ℚ) :
    (∀ it' ∈ (SC.updateQty cart id q).1, ∃ it ∈ cart,
        it'.id = it.id ∧ it'.stock = it.stock ∧ it'.price = it.price
        ∧ (it.id ≠ id → it' = it)
        ∧ (it.id = id →
            ((1 ≤ q → q ≤ it.stock → it'.quantity = q)
              ∧ (1 ≤ q → it.stock < q → it' = it)
              ∧ (q < 1 → it'.quantity = q))))
    ∧ ((SC.updateQty cart id q).2 = true
        ↔ ∃ it ∈ cart, it.id = id ∧ 1 ≤ q ∧ it.stock < q) := by
  constructor
  · intro it' h
    have h' : it' ∈ cart.map (SC.updateItem id q) := h
    rw [List.mem_map] at h'
    obtain ⟨it, hmem, rfl⟩ := h'
    obtain ⟨e1, e2, e3, e4, e5⟩ := SC.updateItem_spec id q it
    exact ⟨it, hmem, e1, e2, e3, e4, e5⟩
  · show (cart.any fun it => it.id == id && !(SC.validateQty it q)) = true ↔ _
    rw [List.any_eq_true]
    constructor
    · rintro ⟨it, hmem, hp⟩
      rw [Bool.and_eq_true, beq_iff_eq, Bool.not_eq_true'] at hp
      exact ⟨it, hmem, hp.1, (SC.validateQty_false_iff it q).mp hp.2⟩
    · rintro ⟨it, hmem, hid, hq⟩
      refine ⟨it, hmem, ?_⟩
      rw [Bool.and_eq_true, beq_iff_eq, Bool.not_eq_true']
      exact ⟨hid, (SC.validateQty_false_iff it q).mpr hq⟩

/-- Witness for C3 (amended): requesting quantity 99 on "sku-2"
(stock 5) fires the rejection signal (end-to-end scenario 4). -/
theorem C3_quantity_update_witness :
    (SC.updateQty SC.DEFAULT_ITEMS "sku-2" 99).2 = true := by
  refine (C3_quantity_update SC.DEFAULT_ITEMS "sku-2" 99).2.mpr
    ⟨⟨"sku-2", "Everyday Tote", 52, "tote.jpg", 1, 5, some "Recycled canvas"⟩,
      List.mem_cons_of_mem _ (List.mem_cons_self _ _), rfl, by norm_num,
      by norm_num⟩

/-- C6 counterexample: for a cart containing a negative-price line the
subtotal is negative, and the SAVE10 registry coupon's derived discount
(−1) exceeds the subtotal (−10), so `discount ≤ subtotal` does not hold for
every cart. -/
theorem C6_discount_le_subtotal_counterexample :
    (⟨"SAVE10", SC.CouponType.percent, some 10⟩ : SC.Coupon) ∈ SC.COUPONS
    ∧ SC.subtotal [⟨"adj", "Adjustment", -10, "a.jpg", 1, 1, none⟩] = -10
    ∧ SC.discount (some ⟨"SAVE10", SC.CouponType.percent, some 10⟩) (-10) = -1
    ∧ ¬(SC.discount (some ⟨"SAVE10", SC.CouponType.percent, some 10⟩) (-10)
        ≤ (-10 : ℚ)) := by
  refine ⟨List.mem_cons_self _ _, ?_, ?_, ?_⟩
  · norm_num [SC.subtotal]
  · rw [SC.discount_of_percent _ _ 10 rfl rfl (by norm_num)]
    norm_num
  · rw [SC.discount_of_percent _ _ 10 rfl rfl (by norm_num)]
    norm_num

/-- C6 (amended): for every registry coupon and every cart whose subtotal is
nonnegative, the derived discount never exceeds the subtotal; moreover every
percent coupon in the registry carries a value ≤ 100. -/
theorem C6_discount_le_subtotal (cart : List SC.CartItem) (c : SC.Coupon)
    (hc : c ∈ SC.COUPONS) (hsub : 0 ≤ SC.subtotal cart) :
    SC.discount (some c) (SC.subtotal cart) ≤ SC.subtotal cart
    ∧ (c.type = SC.CouponType.percent → ∃ v, c.value = some v ∧ v ≤ 100) := by
  set s := SC.subtotal cart with hs
  simp only [SC.COUPONS, List.mem_cons, List.not_mem_nil, or_false] at hc
  rcases hc with rfl | rfl | rfl | rfl
  · refine ⟨?_, fun _ => ⟨10, rfl, by norm_num⟩⟩
    rw [SC.discount_of_percent _ _ 10 rfl rfl (by norm_num)]
    linarith
  · refine ⟨?_, fun _ => ⟨15, rfl, by norm_num⟩⟩
    rw [SC.discount_of_percent _ _ 15 rfl rfl (by norm_num)]
    linarith
  · refine ⟨?_, fun h => absurd h (by decide)⟩
    rw [SC.discount_of_fixed _ _ 5 rfl rfl (by norm_num)]
    exact min_le_right _ _
  · refine ⟨?_, fun h => absurd h (by decide)⟩
    rw [SC.discount_of_shipping _ _ rfl]
    exact hsub

/-- Witness for C6 (amended): SAVE10 on the default cart (subtotal 80). -/
theorem C6_discount_le_subtotal_witness :
    SC.discount (some ⟨"SAVE10", SC.CouponType.percent, some 10⟩)
      (SC.subtotal SC.DEFAULT_ITEMS) ≤ SC.subtotal SC.DEFAULT_ITEMS := by
  refine (C6_discount_le_subtotal SC.DEFAULT_ITEMS _
    (List.mem_cons_self _ _) ?_).1
  rw [SC.subtotal_default]
  norm_num

/-- C7 counterexample: the empty submitted code normalizes to "", which
matches no registry entry, yet `applyCoupon` returns silently — the state
is unchanged but no rejection is signalled, contradicting the claim that
every unmatched code signals a rejection. -/
theorem C7_apply_coupon_counterexample :
    normalizeCode "" = ""
    ∧ SC.COUPONS.find? (fun c => c.code == normalizeCode "") = none
    ∧ SC.applyCoupon "" (some ⟨"SAVE10", SC.CouponType.percent, some 10⟩)
        = (some ⟨"SAVE10", SC.CouponType.percent, some 10⟩,
            SC.ApplySignal.silent)
    ∧ SC.ApplySignal.silent ≠ SC.ApplySignal.rejected := by
  exact ⟨rfl, rfl, rfl, by decide⟩

/-- C7 (amended): the submitted code is normalized (trimmed, uppercased) and
matched against the registry; a non-empty normalized code that matches no
entry leaves the applied coupon unchanged and signals a rejection; an empty
normalized code leaves the state unchanged with no signal at all; a matched
code replaces any currently applied coupon. -/
theorem C7_apply_coupon (input : String) (current : Option SC.Coupon) :
    (normalizeCode input ≠ "" →
        SC.COUPONS.find? (fun c => c.code == normalizeCode input) = none →
        SC.applyCoupon input current = (current, SC.ApplySignal.rejected))
    ∧ (normalizeCode input = "" →
        SC.applyCoupon input current = (current, SC.ApplySignal.silent))
    ∧ (∀ c, SC.COUPONS.find? (fun c2 => c2.code == normalizeCode input)
          = some c →
        normalizeCode input ≠ "" →
        SC.applyCoupon input current = (some c, SC.ApplySignal.applied)) := by
  refine ⟨?_, ?_, ?_⟩
  · intro hne hnone
    simp [SC.applyCoupon, hne, hnone]
  · intro he
    simp [SC.applyCoupon, he]
  · intro c hfound hne
    simp [SC.applyCoupon, hne, hfound]

/-- Witness for C7 (amended): the unknown code "NOPE" is rejected with the
applied coupon unchanged (end-to-end scenario 5), and "save10" normalizes
to SAVE10 and replaces the current coupon. -/
theorem C7_apply_coupon_witness :
    SC.applyCoupon "NOPE" (some ⟨"FREESHIP", SC.CouponType.shipping, none⟩)
        = (some ⟨"FREESHIP", SC.CouponType.shipping, none⟩,
            SC.ApplySignal.rejected)
    ∧ SC.applyCoupon " save10 " none
        = (some ⟨"SAVE10", SC.CouponType.percent, some 10⟩,
            SC.ApplySignal.applied) := by
  exact ⟨(C7_apply_coupon "NOPE" _).1 (by decide) rfl,
    (C7_apply_coupon " save10 " none).2.2 _ rfl (by decide)⟩

/-- C9: the backward-navigation action moves every step after the first to
the immediately preceding step of the order cart → details → shipping →
payment → review → success, and the only transition the rendered machine
offers from the success step is the reset to cart. -/
theorem C9_success_transitions :
    (SC.goBack .details = .cart ∧ SC.goBack .shipping = .details
      ∧ SC.goBack .payment = .shipping ∧ SC.goBack .review = .payment
      ∧ SC.goBack .success = .review ∧ SC.goBack .cart = .cart)
    ∧ (∀ t, SC.StepTransition .success t → t = .cart) := by
  refine ⟨⟨rfl, rfl, rfl, rfl, rfl, rfl⟩, ?_⟩
  intro t h
  cases h
  rfl

/-- Witness for C9: the success step's sole transition, "Continue
shopping", targets the cart step. -/
theorem C9_success_transitions_witness :
    SC.goBack .review = SC.Step.payment ∧ SC.Step.cart = SC.Step.cart :=
  ⟨C9_success_transitions.1.2.2.2.1,
    C9_success_transitions.2 SC.Step.cart SC.StepTransition.continueShopping⟩

theorem nat_ceilDiv_eq (a b : ℕ) (hb : 1 ≤ b) :
    max 1 ((a + b - 1) / b) = max 1 ⌈(a : ℚ) / (b : ℚ)⌉₊ := by
  have hb0 : 0 < b := hb
  have hbQ : (0 : ℚ) < (b : ℚ) := by exact_mod_cast hb0
  rcases Nat.eq_zero_or_pos a with rfl | ha
  · rw [Nat.div_eq_of_lt (by omega)]
    simp
  · have key := Nat.div_add_mod (a + b - 1) b
    have hr : (a + b - 1) % b < b := Nat.mod_lt _ hb0
    set n := (a + b - 1) / b with hn
    have hn1 : 1 ≤ n := by
      rw [hn, Nat.one_le_div_iff hb0]
      omega
    have hceil : ⌈(a : ℚ) / (b : ℚ)⌉₊ = n := by
      rw [Nat.ceil_eq_iff (by omega)]
      constructor
      · rw [lt_div_iff₀ hbQ]
        have hnb : (n - 1) * b < a := by
          rw [Nat.sub_mul, one_mul, mul_comm n b]
          generalize hm : b * n = m at key
          omega
        exact_mod_cast hnb
      · rw [div_le_iff₀ hbQ]
        have hna : a ≤ n * b := by
          rw [mul_comm n b]
          generalize hm : b * n = m at key
          omega
        exact_mod_cast hna
    rw [hceil]

/-- C4 counterexample: a product with `inStock: true` and no
`inventoryCount` is kept by the catalog's in-stock-only filter (which
defaults the count to 1) but rejected by the add-to-cart gate (which
defaults it to 0), so the two sites do not accept the same products. -/
theorem C4_stock_gating_counterexample :
    PC.inStockFilterKeeps
        { id := "p1", name := "Widget", price := 10, inStock := some true }
      = true
    ∧ PC.addGateAccepts
        { id := "p1", name := "Widget", price := 10, inStock := some true }
      = false := by
  exact ⟨rfl, rfl⟩

/-- C4 (amended): when `inventoryCount` is present the two stock-gating
sites agree and both compute `inStock !== false && inventoryCount > 0`;
when it is absent the catalog filter keeps the product iff
`inStock !== false` while the add-to-cart gate always rejects it. -/
theorem C4_stock_gating (p : PC.CatalogProduct) :
    (∀ n, p.inventoryCount = some n →
        (PC.inStockFilterKeeps p = PC.addGateAccepts p
          ∧ PC.inStockFilterKeeps p
              = (!(p.inStock == some false) && decide (0 < n))))
    ∧ (p.inventoryCount = none →
        (PC.inStockFilterKeeps p = !(p.inStock == some false)
          ∧ PC.addGateAccepts p = false)) := by
  constructor
  · intro n hn
    unfold PC.inStockFilterKeeps PC.addGateAccepts
    rw [hn]
    simp only [Option.getD_some]
    refine ⟨?_, by trivial⟩
    rcases lt_or_le 0 n with h | h
    · have d1 : decide (0 < n) = true := by simp [h]
      have d2 : decide (n ≤ 0) = false := by
        rw [decide_eq_false_iff_not]
        exact not_le.mpr h
      rw [d1, d2]
      simp
    · have d1 : decide (0 < n) = false := by
        rw [decide_eq_false_iff_not]
        exact not_lt.mpr h
      have d2 : decide (n ≤ 0) = true := by simp [h]
      rw [d1, d2]
      simp
  · intro hn
    unfold PC.inStockFilterKeeps PC.addGateAccepts
    rw [hn]
    simp

/-- Witness for C4 (amended): a product with a present inventory count of 7
is treated identically by the filter and the gate. -/
theorem C4_stock_gating_witness :
    PC.inStockFilterKeeps
        { id := "p2", name := "Hoodie", price := 64, inStock := some true,
          inventoryCount := some 7 }
      = PC.addGateAccepts
        { id := "p2", name := "Hoodie", price := 64, inStock := some true,
          inventoryCount := some 7 } :=
  ((C4_stock_gating _).1 7 rfl).1

/-- C5: the catalog query engine returns the filtered count as `total`,
`totalPages = max(1, ceil(total / pageSize))`, `currentPage =
min(remembered page, totalPages)` (clamped down, never up), and an items
slice with `items.length ≤ pageSize`, with `items.length = total` whenever
`total ≤ pageSize`. -/
theorem C5_pagination (products : List PC.CatalogProduct) (f : PC.Filters)
    (sortFn : List PC.CatalogProduct → List PC.CatalogProduct)
    (pageSize page : ℕ) (hps : 1 ≤ pageSize) (hpg : 1 ≤ page)
    (hsort : ∀ l, (sortFn l).length = l.length) :
    (PC.computedEngine products f sortFn pageSize page).total
        = (PC.applyFilters products f).length
    ∧ (PC.computedEngine products f sortFn pageSize page).totalPages
        = max 1 ⌈((PC.computedEngine products f sortFn pageSize page).total : ℚ)
            / (pageSize : ℚ)⌉₊
    ∧ (PC.computedEngine products f sortFn pageSize page).currentPage
        = min page (PC.computedEngine products f sortFn pageSize page).totalPages
    ∧ (PC.computedEngine products f sortFn pageSize page).currentPage ≤ page
    ∧ (PC.computedEngine products f sortFn pageSize page).items.length ≤ pageSize
    ∧ ((PC.computedEngine products f sortFn pageSize page).total ≤ pageSize →
        (PC.computedEngine products f sortFn pageSize page).items.length
          = (PC.computedEngine products f sortFn pageSize page).total) := by
  have llen := hsort (PC.applyFilters products f)
  simp only [PC.computedEngine]
  refine ⟨llen, nat_ceilDiv_eq _ pageSize hps, by trivial, min_le_left _ _, ?_, ?_⟩
  · rw [List.length_take]
    exact min_le_left _ _
  · intro hto
    have h2 : max 1 (((sortFn (PC.applyFilters products f)).length
        + pageSize - 1) / pageSize) = 1 := by
      have h1 : ((sortFn (PC.applyFilters products f)).length
          + pageSize - 1) / pageSize < 2 := by
        rw [Nat.div_lt_iff_lt_mul (by omega)]
        omega
      omega
    rw [h2, Nat.min_eq_right hpg]
    simp only [Nat.sub_self, Nat.zero_mul, List.drop_zero]
    rw [List.length_take]
    exact Nat.min_eq_right hto

/-- Witness for C5: the engine on an empty catalog, default filters,
identity sort, page size 12 and remembered page 1. -/
theorem C5_pagination_witness :
    (PC.computedEngine [] ⟨"", "all", false, false, fun _ => false⟩
        (fun l => l) 12 1).items.length ≤ 12 :=
  (C5_pagination [] ⟨"", "all", false, false, fun _ => false⟩ (fun l => l)
    12 1 (by norm_num) le_rfl (fun _ => rfl)).2.2.2.2.1

/-- C8: starting from the empty compare set, no sequence of toggles ever
produces more than 4 members; a 5th toggle-on attempt returns the set
unchanged; and toggling any member of a legal (≤ 4 member) set off always
succeeds, removing exactly that member. -/
theorem C8_compare_cap :
    (∀ ops : List String, (ops.foldl PC.toggleCompare ∅).card ≤ 4)
    ∧ (∀ (s : Finset String) (id : String), s.card = 4 → id ∉ s →
        PC.toggleCompare s id = s)
    ∧ (∀ (s : Finset String) (id : String), s.card ≤ 4 → id ∈ s →
        PC.toggleCompare s id = s.erase id) := by
  have hstep : ∀ (s : Finset String) (a : String), s.card ≤ 4 →
      (PC.toggleCompare s a).card ≤ 4 := by
    intro s a hs
    by_cases hmem : a ∈ s
    · simp only [PC.toggleCompare, if_pos hmem]
      by_cases hc : 4 < (s.erase a).card
      · rw [if_pos hc]
        exact hs
      · rw [if_neg hc]
        omega
    · simp only [PC.toggleCompare, if_neg hmem]
      by_cases hc : 4 < (insert a s).card
      · rw [if_pos hc]
        exact hs
      · rw [if_neg hc]
        omega
  refine ⟨?_, ?_, ?_⟩
  · intro ops
    have haux : ∀ (s : Finset String), s.card ≤ 4 →
        (ops.foldl PC.toggleCompare s).card ≤ 4 := by
      induction ops with
      | nil => exact fun s h => h
      | cons a t ih => exact fun s h => ih _ (hstep s a h)
    exact haux ∅ (by simp)
  · intro s id h4 hni
    have hcard : (insert id s).card = 5 := by
      rw [Finset.card_insert_of_not_mem hni, h4]
    simp only [PC.toggleCompare, if_neg hni]
    rw [if_pos (by rw [hcard]; norm_num : 4 < (insert id s).card)]
  · intro s id hc hmem
    simp only [PC.toggleCompare, if_pos hmem]
    rw [if_neg (by
      have h := Finset.card_erase_le (s := s) (a := id)
      omega)]

/-- Witness for C8: with the four-member set {a, b, c, d}, toggling "e" on
is rejected and the set is returned unchanged. -/
theorem C8_compare_cap_witness :
    ({"a", "b", "c", "d"} : Finset String).card = 4
    ∧ PC.toggleCompare {"a", "b", "c", "d"} "e" = {"a", "b", "c", "d"} :=
  ⟨by decide, C8_compare_cap.2.1 _ "e" (by decide) (by decide)⟩

/-- C10: the page-level add-to-cart handler appends a fresh line with
quantity exactly 1 for a product not yet in the cart; for a product already
in the cart it sets each matching line's quantity to
`min(existing.quantity + 1, stock)` (with `stock` the resolved ceiling
`p.inventoryCount ?? existing.stock`), so the new quantity never exceeds
the resolved ceiling, and never exceeds the line's recorded stock whenever
the resolved ceiling does not (in particular whenever `inventoryCount` is
absent or matches the recorded stock). -/
theorem C10_page_add_to_cart (p : PC.CatalogProduct) (prev : List PG.CartItem) :
    (prev.find? (fun i => i.id == p.id) = none →
        PG.handleAddToCart p prev = prev ++ [PG.freshLine p]
          ∧ (PG.freshLine p).quantity = 1)
    ∧ (∀ ex, prev.find? (fun i => i.id == p.id) = some ex →
        (∀ it' ∈ PG.handleAddToCart p prev, it'.id = p.id →
            it'.quantity = min (ex.quantity + 1) (PG.resolveStock p ex)
              ∧ it'.quantity ≤ PG.resolveStock p ex)
          ∧ (PG.resolveStock p ex ≤ ex.stock →
              ∀ it' ∈ PG.handleAddToCart p prev, it'.id = p.id →
                it'.quantity ≤ ex.stock)) := by
  constructor
  · intro hnone
    refine ⟨?_, rfl⟩
    unfold PG.handleAddToCart
    rw [hnone]
  · intro ex hex
    have hmain : ∀ it' ∈ PG.handleAddToCart p prev, it'.id = p.id →
        it'.quantity = min (ex.quantity + 1) (PG.resolveStock p ex) := by
      intro it' hmem hid
      unfold PG.handleAddToCart at hmem
      rw [hex] at hmem
      rw [List.mem_map] at hmem
      obtain ⟨it, hit, rfl⟩ := hmem
      by_cases h : (it.id == p.id) = true
      · rw [if_pos h]
      · rw [if_neg h] at hid ⊢
        exact absurd (beq_iff_eq.mpr hid) h
    refine ⟨fun it' hmem hid => ⟨hmain it' hmem hid, ?_⟩, ?_⟩
    · rw [(hmain it' hmem hid :)]
      exact min_le_right _ _
    · intro hle it' hmem hid
      rw [(hmain it' hmem hid :)]
      exact le_trans (min_le_right _ _) hle

/-- Witness for C10: adding a product with inventory count 7 to the empty
cart appends a fresh line with quantity 1. -/
theorem C10_page_add_to_cart_witness :
    PG.handleAddToCart
        { id := "p2", name := "Hoodie", price := 64, inStock := some true,
          inventoryCount := some 7 } []
      = [] ++ [PG.freshLine
        { id := "p2", name := "Hoodie", price := 64, inStock := some true,
          inventoryCount := some 7 }]
    ∧ (PG.freshLine
        { id := "p2", name := "Hoodie", price := 64, inStock := some true,
          inventoryCount := some 7 }).quantity = 1 :=
  (C10_page_add_to_cart _ []).1 rfl
